import Mathlib

/-!
Shallow embedding of MIRAI's interval abstract domain
(src/checker/src/interval_domain.rs) and verification of its specified
algebraic properties.

Machine integers (`i128`) are modelled as `Int` together with explicit
numeric range constants; the saturating operations clamp to that range
exactly as Rust's `saturating_add`/`saturating_sub`/`saturating_mul` do,
and Rust's truncated division `/` on `i128` is `Int.tdiv`.
The analyzer builds for 64-bit targets, so `isize`/`usize` are 64 bits wide.
-/

namespace Mirai

def i128Min : Int := -170141183460469231731687303715884105728

def i128Max : Int := 170141183460469231731687303715884105727

def isizeMin : Int := -9223372036854775808

def isizeMax : Int := 9223372036854775807

def usizeMax : Int := 18446744073709551615

/-- The interval domain element: a closed range of `i128` numbers given by a
lower bound and an upper bound (`i128::MIN` denotes -infinity and `i128::MAX`
denotes +infinity). -/
structure IntervalDomain where
  lower_bound : Int
  upper_bound : Int
deriving DecidableEq, Repr

def BOTTOM : IntervalDomain := ⟨1, 0⟩

def TOP : IntervalDomain := ⟨i128Min, i128Max⟩

/-- Modelled from the spec: the closed `NumericKind` / `ExpressionType`
enumeration (8/16/32/64/128-bit signed and unsigned kinds, platform-width
signed/unsigned kinds, and a catch-all non-numeric case). Its declaration
lives in the repository's expression module, which is not under src/; only
the cases consumed by interval_domain.rs are modelled, with the catch-all
collapsed into a single constructor. -/
inductive ExpressionType where
  | I8 | I16 | I32 | I64 | I128 | Isize
  | U8 | U16 | U32 | U64 | U128 | Usize
  | NonNumeric
deriving DecidableEq, Repr

/-- Rust `i128::saturating_add`. -/
def saturating_add (x y : Int) : Int := max i128Min (min i128Max (x + y))

/-- Rust `i128::saturating_sub`. -/
def saturating_sub (x y : Int) : Int := max i128Min (min i128Max (x - y))

/-- Rust `i128::saturating_mul`. -/
def saturating_mul (x y : Int) : Int := max i128Min (min i128Max (x * y))

/-- Rust `i128::checked_neg`: `none` exactly when the negation does not fit
in the `i128` range (i.e. at `i128::MIN`, for in-range inputs). -/
def checked_neg (x : Int) : Option Int :=
  if i128Min ≤ -x ∧ -x ≤ i128Max then some (-x) else none

namespace IntervalDomain

def is_bottom (s : IntervalDomain) : Bool :=
  decide (s.upper_bound < s.lower_bound)

def is_top (s : IntervalDomain) : Bool :=
  decide (s.lower_bound = i128Min) && decide (s.upper_bound = i128Max)

def add (s o : IntervalDomain) : IntervalDomain :=
  if s.is_bottom || o.is_bottom then BOTTOM
  else if s.is_top || o.is_top then TOP
  else ⟨saturating_add s.lower_bound o.lower_bound,
        saturating_add s.upper_bound o.upper_bound⟩

def div (s o : IntervalDomain) : IntervalDomain :=
  if s.is_bottom || o.is_bottom then BOTTOM
  else if s.is_top || o.is_top then TOP
  else if 0 < o.lower_bound then
    ⟨Int.tdiv s.lower_bound o.upper_bound, Int.tdiv s.upper_bound o.lower_bound⟩
  else TOP

def greater_or_equal (s o : IntervalDomain) : Option Bool :=
  if s.is_bottom || s.is_top || o.is_bottom || o.is_top then none
  else if o.upper_bound ≤ s.lower_bound then some true
  else if s.upper_bound < o.lower_bound then some false
  else none

def greater_than (s o : IntervalDomain) : Option Bool :=
  if s.is_bottom || s.is_top || o.is_bottom || o.is_top then none
  else if o.upper_bound < s.lower_bound then some true
  else if s.upper_bound ≤ o.lower_bound then some false
  else none

def is_contained_in (s : IntervalDomain) (target_type : ExpressionType) : Bool :=
  if s.is_bottom || s.is_top then false
  else match target_type with
    | .I8 => decide (-128 ≤ s.lower_bound ∧ s.upper_bound ≤ 127)
    | .I16 => decide (-32768 ≤ s.lower_bound ∧ s.upper_bound ≤ 32767)
    | .I32 => decide (-2147483648 ≤ s.lower_bound ∧ s.upper_bound ≤ 2147483647)
    | .I64 => decide (-9223372036854775808 ≤ s.lower_bound ∧
                      s.upper_bound ≤ 9223372036854775807)
    | .I128 => decide (i128Min < s.lower_bound ∧ s.upper_bound < i128Max)
    | .Isize => decide (isizeMin ≤ s.lower_bound ∧ s.upper_bound ≤ isizeMax)
    | .U8 => decide (0 ≤ s.lower_bound ∧ s.upper_bound ≤ 255)
    | .U16 => decide (0 ≤ s.lower_bound ∧ s.upper_bound ≤ 65535)
    | .U32 => decide (0 ≤ s.lower_bound ∧ s.upper_bound ≤ 4294967295)
    | .U64 => decide (0 ≤ s.lower_bound ∧ s.upper_bound ≤ 18446744073709551615)
    | .U128 => decide (0 ≤ s.lower_bound ∧ s.upper_bound < i128Max)
    | .Usize => decide (0 ≤ s.lower_bound ∧ s.upper_bound ≤ usizeMax)
    | .NonNumeric => false

def intersect (s o : IntervalDomain) : IntervalDomain :=
  if s.is_bottom || o.is_bottom then BOTTOM
  else if s.is_top then o
  else if o.is_top then s
  else ⟨max s.lower_bound o.lower_bound, min s.upper_bound o.upper_bound⟩

def less_equal (s o : IntervalDomain) : Option Bool :=
  if s.is_bottom || s.is_top || o.is_bottom || o.is_top then none
  else if s.upper_bound ≤ o.lower_bound then some true
  else if o.upper_bound < s.lower_bound then some false
  else none

def less_than (s o : IntervalDomain) : Option Bool :=
  if s.is_bottom || s.is_top || o.is_bottom || o.is_top then none
  else if s.upper_bound < o.lower_bound then some true
  else if o.upper_bound ≤ s.lower_bound then some false
  else none

def remove_lower_bound (s : IntervalDomain) : IntervalDomain :=
  ⟨TOP.lower_bound, s.upper_bound⟩

def remove_upper_bound (s : IntervalDomain) : IntervalDomain :=
  ⟨s.lower_bound, TOP.upper_bound⟩

def replace_upper_bound (s : IntervalDomain) (new_value : Int) : IntervalDomain :=
  ⟨s.lower_bound, new_value⟩

def mul (s o : IntervalDomain) : IntervalDomain :=
  if s.is_bottom || o.is_bottom then BOTTOM
  else if s.is_top || o.is_top then TOP
  else
    let xa := saturating_mul s.lower_bound o.lower_bound
    let xb := saturating_mul s.lower_bound o.upper_bound
    let ya := saturating_mul s.upper_bound o.lower_bound
    let yb := saturating_mul s.upper_bound o.upper_bound
    ⟨min (min (min xa xb) ya) yb, max (max (max xa xb) ya) yb⟩

def neg (s : IntervalDomain) : IntervalDomain :=
  if s.is_bottom then BOTTOM
  else if s.is_top then TOP
  else ⟨(checked_neg s.upper_bound).getD i128Max,
        (checked_neg s.lower_bound).getD i128Max⟩

def rem (s o : IntervalDomain) : IntervalDomain :=
  if s.is_bottom || o.is_bottom then BOTTOM
  else if s.is_top || o.is_top then TOP
  else if 0 ≤ s.lower_bound ∧ 1 ≤ o.lower_bound then
    ⟨0, min s.upper_bound (o.upper_bound - 1)⟩
  else TOP

def sub (s o : IntervalDomain) : IntervalDomain :=
  if s.is_bottom || o.is_bottom then BOTTOM
  else if s.is_top || o.is_top then TOP
  else ⟨saturating_sub s.lower_bound o.upper_bound,
        saturating_sub s.upper_bound o.lower_bound⟩

def widen (s o : IntervalDomain) : IntervalDomain :=
  if s.is_bottom || o.is_bottom then BOTTOM
  else if s.is_top || o.is_top then TOP
  else ⟨min s.lower_bound o.lower_bound, max s.upper_bound o.upper_bound⟩

/-- `impl From<ExpressionType> for IntervalDomain`: the full native range of
the numeric kind; a non-numeric kind yields BOTTOM. -/
def fromType (t : ExpressionType) : IntervalDomain :=
  match t with
  | .I8 => ⟨-128, 127⟩
  | .I16 => ⟨-32768, 32767⟩
  | .I32 => ⟨-2147483648, 2147483647⟩
  | .I64 => ⟨-9223372036854775808, 9223372036854775807⟩
  | .I128 => ⟨i128Min, i128Max⟩
  | .Isize => ⟨isizeMin, isizeMax⟩
  | .U8 => ⟨0, 255⟩
  | .U16 => ⟨0, 65535⟩
  | .U32 => ⟨0, 4294967295⟩
  | .U64 => ⟨0, 18446744073709551615⟩
  | .U128 => ⟨0, i128Max⟩
  | .Usize => ⟨0, usizeMax⟩
  | .NonNumeric => BOTTOM

end IntervalDomain

theorem tdiv_ofNat_ofNat (m n : Nat) :
    Int.tdiv (Int.ofNat m) (Int.ofNat n) = Int.ofNat (m / n) := rfl

/-- Truncated division is monotone in the dividend and antitone in the
divisor on non-negative dividends and positive divisors. -/
theorem tdiv_le_tdiv_of_nonneg (p₁ p₂ q₁ q₂ : Int) (h0 : 0 ≤ p₁) (hp : p₁ ≤ p₂)
    (hq0 : 0 < q₁) (hq : q₁ ≤ q₂) : Int.tdiv p₁ q₂ ≤ Int.tdiv p₂ q₁ := by
  obtain ⟨a, rfl⟩ := Int.eq_ofNat_of_zero_le h0
  obtain ⟨b, rfl⟩ := Int.eq_ofNat_of_zero_le (h0.trans hp)
  obtain ⟨c, rfl⟩ := Int.eq_ofNat_of_zero_le hq0.le
  obtain ⟨d, rfl⟩ := Int.eq_ofNat_of_zero_le (hq0.le.trans hq)
  have ha : (a : Int) = Int.ofNat a := rfl
  have hbn : (b : Int) = Int.ofNat b := rfl
  have hcn : (c : Int) = Int.ofNat c := rfl
  have hdn : (d : Int) = Int.ofNat d := rfl
  rw [ha, hbn, hcn, hdn, tdiv_ofNat_ofNat, tdiv_ofNat_ofNat]
  have hab : a ≤ b := by exact_mod_cast hp
  have hcd : c ≤ d := by exact_mod_cast hq
  have hc0 : 0 < c := by exact_mod_cast hq0
  exact Int.ofNat_le.mpr
    (le_trans (Nat.div_le_div_right hab) (Nat.div_le_div_left hcd hc0))

/-- C1 counterexample: for `self = [-5,5]`, `other = [1,3]` (both non-bottom
and non-top, divisor lower bound strictly positive), the concrete points
`p = -5 ∈ self`, `q = 1 ∈ other` have truncated quotient `-5`, which lies
outside the non-bottom result `self.div(other) = [-1, 5]`. -/
theorem div_unsound_cex :
    (IntervalDomain.mk (-5) 5).is_bottom = false ∧
    (IntervalDomain.mk (-5) 5).is_top = false ∧
    (IntervalDomain.mk 1 3).is_bottom = false ∧
    (IntervalDomain.mk 1 3).is_top = false ∧
    0 < (IntervalDomain.mk 1 3).lower_bound ∧
    (IntervalDomain.mk (-5) 5).lower_bound ≤ -5 ∧
    (-5 : Int) ≤ (IntervalDomain.mk (-5) 5).upper_bound ∧
    (IntervalDomain.mk 1 3).lower_bound ≤ 1 ∧
    (1 : Int) ≤ (IntervalDomain.mk 1 3).upper_bound ∧
    ((IntervalDomain.mk (-5) 5).div (IntervalDomain.mk 1 3)).is_bottom = false ∧
    ¬ (((IntervalDomain.mk (-5) 5).div (IntervalDomain.mk 1 3)).lower_bound ≤
          Int.tdiv (-5) 1 ∧
        Int.tdiv (-5) 1 ≤
          ((IntervalDomain.mk (-5) 5).div (IntervalDomain.mk 1 3)).upper_bound) := by
  decide

/-- C1 (amended): soundness of `div` restricted to non-negative dividend
intervals: for non-bottom, non-top `self` and `other` with
`other.lower_bound > 0` and additionally `0 ≤ self.lower_bound`, every
truncated quotient `p / q` of points `p ∈ self`, `q ∈ other` lies within
`self.div(other)` whenever that result is not bottom. -/
theorem div_sound_of_nonneg_dividend (s o : Mirai.IntervalDomain) (p q : Int)
    (hsb : s.is_bottom = false) (hst : s.is_top = false)
    (hob : o.is_bottom = false) (hot : o.is_top = false)
    (hs0 : 0 ≤ s.lower_bound) (ha : 0 < o.lower_bound)
    (hp1 : s.lower_bound ≤ p) (hp2 : p ≤ s.upper_bound)
    (hq1 : o.lower_bound ≤ q) (hq2 : q ≤ o.upper_bound)
    (hres : (s.div o).is_bottom = false) :
    (s.div o).lower_bound ≤ Int.tdiv p q ∧
      Int.tdiv p q ≤ (s.div o).upper_bound := by
  have hdiv : s.div o =
      ⟨Int.tdiv s.lower_bound o.upper_bound,
       Int.tdiv s.upper_bound o.lower_bound⟩ := by
    simp [IntervalDomain.div, hsb, hst, hob, hot, ha]
  rw [hdiv]
  constructor
  · exact tdiv_le_tdiv_of_nonneg s.lower_bound p q o.upper_bound hs0 hp1
      (lt_of_lt_of_le ha hq1) hq2
  · exact tdiv_le_tdiv_of_nonneg p s.upper_bound o.lower_bound q
      (hs0.trans hp1) hp2 ha hq1

/-- C1 witness: `self = [0,10]`, `other = [1,2]`, `p = 5`, `q = 2`:
`5 / 2 = 2` lies inside `self.div(other) = [0, 10]`. -/
theorem div_sound_of_nonneg_dividend_witness :
    ((IntervalDomain.mk 0 10).div (IntervalDomain.mk 1 2)).lower_bound ≤
        Int.tdiv 5 2 ∧
      Int.tdiv 5 2 ≤
        ((IntervalDomain.mk 0 10).div (IntervalDomain.mk 1 2)).upper_bound :=
  div_sound_of_nonneg_dividend (IntervalDomain.mk 0 10) (IntervalDomain.mk 1 2)
    5 2 (by decide) (by decide) (by decide) (by decide) (by decide) (by decide)
    (by decide) (by decide) (by decide) (by decide) (by decide)

/-- C2 counterexample: `widen` does not treat BOTTOM as an identity: for
`x = (5, 5)`, `x.widen(&BOTTOM)` is the canonical BOTTOM `(1, 0)`, not `x`. -/
theorem widen_bottom_not_identity_cex :
    (IntervalDomain.mk 5 5).widen BOTTOM ≠ IntervalDomain.mk 5 5 := by
  decide

/-- C2 (amended): widening absorbs every operand when the other is BOTTOM:
for every interval x, `x.widen(&BOTTOM)` is the canonical BOTTOM `(1, 0)`
(so it equals x only when x is itself canonical BOTTOM). -/
theorem widen_bottom_eq_bottom (x : Mirai.IntervalDomain) :
    x.widen BOTTOM = BOTTOM := by
  have hB : BOTTOM.is_bottom = true := by decide
  simp [IntervalDomain.widen, hB]

/-- C3 counterexample: `[-5,5].rem(&[1,3])` is not `[0,2]` (the dividend's
lower bound is negative, so the guarded branch is not taken). -/
theorem rem_neg_dividend_cex :
    (IntervalDomain.mk (-5) 5).rem (IntervalDomain.mk 1 3) ≠
      IntervalDomain.mk 0 2 := by
  decide

/-- C3 (amended): `[-5,5].rem(&[1,3])` returns TOP: the dividend's lower
bound is negative, so `rem`'s precise branch (which requires a non-negative
dividend lower bound) is skipped and the imprecise TOP result is produced. -/
theorem rem_neg_dividend_eq_top :
    (IntervalDomain.mk (-5) 5).rem (IntervalDomain.mk 1 3) = TOP := by
  decide

/-- C7 counterexample: intersection with TOP is not an identity on every
pair of i128 bounds: the bottom-equivalent pair `(5, 3)` is normalized to
the canonical BOTTOM `(1, 0)` by `intersect`, so `x.intersect(&TOP) ≠ x`. -/
theorem intersect_top_not_identity_cex :
    (IntervalDomain.mk 5 3).intersect TOP ≠ IntervalDomain.mk 5 3 := by
  decide

/-- C7 (amended): intersection with TOP is an identity on every non-bottom
interval: if `x.is_bottom()` is false then `x.intersect(&TOP) == x`; a
bottom-equivalent x is instead normalized to the canonical BOTTOM. -/
theorem intersect_top_identity (x : Mirai.IntervalDomain)
    (h : x.is_bottom = false) : x.intersect TOP = x := by
  have hTb : TOP.is_bottom = false := by decide
  have hTt : TOP.is_top = true := by decide
  by_cases ht : x.is_top = true
  · have hx : x = TOP := by
      have h1 := ht
      simp [IntervalDomain.is_top] at h1
      cases x
      simp only [TOP]
      simp_all
    rw [hx]
    decide
  · simp [IntervalDomain.intersect, h, hTb, ht, hTt]

/-- C7 witness: the non-bottom interval `(0, 0)` is fixed by intersection
with TOP. -/
theorem intersect_top_identity_witness :
    (IntervalDomain.mk 0 0).intersect TOP = IntervalDomain.mk 0 0 :=
  intersect_top_identity (IntervalDomain.mk 0 0) (by decide)

/-- C8: every arithmetic and lattice operator returns the canonical BOTTOM
encoding `(1, 0)` whenever an operand is bottom-equivalent
(`upper_bound < lower_bound`), even a non-canonical one; `neg` does the same
on its single operand. -/
theorem bottom_operand_normalizes (s o : Mirai.IntervalDomain)
    (h : s.is_bottom = true ∨ o.is_bottom = true) :
    s.add o = BOTTOM ∧ s.sub o = BOTTOM ∧ s.mul o = BOTTOM ∧
    s.div o = BOTTOM ∧ s.rem o = BOTTOM ∧ s.intersect o = BOTTOM ∧
    s.widen o = BOTTOM ∧ (s.is_bottom = true → s.neg = BOTTOM) := by
  have hneg : s.is_bottom = true → s.neg = BOTTOM := by
    intro hs
    simp [IntervalDomain.neg, hs]
  rcases h with h | h <;>
    exact ⟨by simp [IntervalDomain.add, h], by simp [IntervalDomain.sub, h],
           by simp [IntervalDomain.mul, h], by simp [IntervalDomain.div, h],
           by simp [IntervalDomain.rem, h], by simp [IntervalDomain.intersect, h],
           by simp [IntervalDomain.widen, h], hneg⟩

/-- C8 witness: with the non-canonical bottom-equivalent operand `(5, 3)`
and the ordinary operand `(0, 0)`, every operator yields canonical BOTTOM. -/
theorem bottom_operand_normalizes_witness :
    (IntervalDomain.mk 5 3).add (IntervalDomain.mk 0 0) = BOTTOM ∧
    (IntervalDomain.mk 5 3).sub (IntervalDomain.mk 0 0) = BOTTOM ∧
    (IntervalDomain.mk 5 3).mul (IntervalDomain.mk 0 0) = BOTTOM ∧
    (IntervalDomain.mk 5 3).div (IntervalDomain.mk 0 0) = BOTTOM ∧
    (IntervalDomain.mk 5 3).rem (IntervalDomain.mk 0 0) = BOTTOM ∧
    (IntervalDomain.mk 5 3).intersect (IntervalDomain.mk 0 0) = BOTTOM ∧
    (IntervalDomain.mk 5 3).widen (IntervalDomain.mk 0 0) = BOTTOM ∧
    ((IntervalDomain.mk 5 3).is_bottom = true →
      (IntervalDomain.mk 5 3).neg = BOTTOM) :=
  bottom_operand_normalizes (IntervalDomain.mk 5 3) (IntervalDomain.mk 0 0)
    (Or.inl (by decide))

/-- C9: for every numeric kind other than the 128-bit ones, the full-range
interval built from the kind is contained in that same kind; but
`from(I128)` is exactly the TOP encoding so its containment check is false,
and `from(U128)` has the sentinel `i128::MAX` as upper bound so its
containment check is also false. -/
theorem fromType_containment_round_trip :
    (IntervalDomain.fromType .I8).is_contained_in .I8 = true ∧
    (IntervalDomain.fromType .I16).is_contained_in .I16 = true ∧
    (IntervalDomain.fromType .I32).is_contained_in .I32 = true ∧
    (IntervalDomain.fromType .I64).is_contained_in .I64 = true ∧
    (IntervalDomain.fromType .Isize).is_contained_in .Isize = true ∧
    (IntervalDomain.fromType .U8).is_contained_in .U8 = true ∧
    (IntervalDomain.fromType .U16).is_contained_in .U16 = true ∧
    (IntervalDomain.fromType .U32).is_contained_in .U32 = true ∧
    (IntervalDomain.fromType .U64).is_contained_in .U64 = true ∧
    (IntervalDomain.fromType .Usize).is_contained_in .Usize = true ∧
    IntervalDomain.fromType .I128 = TOP ∧
    (IntervalDomain.fromType .I128).is_contained_in .I128 = false ∧
    (IntervalDomain.fromType .U128).upper_bound = i128Max ∧
    (IntervalDomain.fromType .U128).is_contained_in .U128 = false := by
  decide

/-- C4: three-valued comparison consistency: if `a.less_than(b)` returns
`Some(true)` then `a.less_equal(b)` returns `Some(true)` and
`a.greater_or_equal(b)` returns `Some(false)`. -/
theorem less_than_consistency (a b : Mirai.IntervalDomain)
    (h : a.less_than b = some true) :
    a.less_equal b = some true ∧ a.greater_or_equal b = some false := by
  unfold IntervalDomain.less_than at h
  by_cases hc : (a.is_bottom || a.is_top || b.is_bottom || b.is_top) = true
  · rw [if_pos hc] at h
    exact absurd h (by simp)
  · rw [if_neg hc] at h
    by_cases hlt : a.upper_bound < b.lower_bound
    · have hab : a.lower_bound ≤ a.upper_bound := by
        have h1 : a.is_bottom = false := by
          revert hc
          cases a.is_bottom <;> simp
        simp only [IntervalDomain.is_bottom, decide_eq_false_iff_not] at h1
        omega
      have hbb : b.lower_bound ≤ b.upper_bound := by
        have h1 : b.is_bottom = false := by
          revert hc
          cases b.is_bottom <;> simp
        simp only [IntervalDomain.is_bottom, decide_eq_false_iff_not] at h1
        omega
      constructor
      · unfold IntervalDomain.less_equal
        rw [if_neg hc, if_pos (le_of_lt hlt)]
      · unfold IntervalDomain.greater_or_equal
        rw [if_neg hc, if_neg (by omega : ¬ b.upper_bound ≤ a.lower_bound),
          if_pos hlt]
    · rw [if_neg hlt] at h
      by_cases hge : b.upper_bound ≤ a.lower_bound
      · rw [if_pos hge] at h
        exact absurd h (by simp)
      · rw [if_neg hge] at h
        exact absurd h (by simp)

/-- C4 witness: `[0,0].less_than([1,1]) = Some(true)`, and indeed
`less_equal` gives `Some(true)` and `greater_or_equal` gives `Some(false)`. -/
theorem less_than_consistency_witness :
    (IntervalDomain.mk 0 0).less_equal (IntervalDomain.mk 1 1) = some true ∧
    (IntervalDomain.mk 0 0).greater_or_equal (IntervalDomain.mk 1 1) =
      some false :=
  less_than_consistency (IntervalDomain.mk 0 0) (IntervalDomain.mk 1 1)
    (by decide)

/-- C5 counterexample: the saturating branch of `neg` IS reached on a
sentinel bound: the half-unbounded interval `(i128::MIN, 5)` is neither
bottom nor top, `checked_neg` fails on its lower bound so `neg` clamps the
negated bound to `i128::MAX`, yet that bound is exactly the -infinity
sentinel `i128::MIN`. -/
theorem neg_clamp_sentinel_cex :
    (IntervalDomain.mk i128Min 5).is_bottom = false ∧
    (IntervalDomain.mk i128Min 5).is_top = false ∧
    checked_neg (IntervalDomain.mk i128Min 5).lower_bound = none ∧
    (IntervalDomain.mk i128Min 5).neg.upper_bound = i128Max ∧
    (IntervalDomain.mk i128Min 5).lower_bound = i128Min := by
  decide

/-- C5 (amended): on every non-bottom, non-top interval whose bounds lie in
the i128 range, the saturating branch of `neg` (a `checked_neg` failure,
clamped to `i128::MAX`) is reached exactly when the bound being negated IS
the -infinity sentinel `i128::MIN` — never for any other bound. -/
theorem neg_clamps_only_at_sentinel (s : Mirai.IntervalDomain)
    (hb : s.is_bottom = false) (ht : s.is_top = false)
    (h1 : i128Min ≤ s.lower_bound) (h2 : s.upper_bound ≤ i128Max) :
    (checked_neg s.lower_bound = none →
        s.lower_bound = i128Min ∧ s.neg.upper_bound = i128Max) ∧
    (checked_neg s.upper_bound = none →
        s.upper_bound = i128Min ∧ s.neg.lower_bound = i128Max) := by
  have hord : s.lower_bound ≤ s.upper_bound := by
    simp only [IntervalDomain.is_bottom, decide_eq_false_iff_not] at hb
    omega
  have hneg : s.neg = ⟨(checked_neg s.upper_bound).getD i128Max,
                       (checked_neg s.lower_bound).getD i128Max⟩ := by
    simp [IntervalDomain.neg, hb, ht]
  simp only [i128Min, i128Max] at h1 h2
  constructor
  · intro hn
    refine ⟨?_, by rw [hneg]; simp [hn]⟩
    have hn2 := hn
    simp only [checked_neg, ite_eq_right_iff, reduceCtorEq, imp_false,
      not_and, not_le, i128Min, i128Max] at hn2
    simp only [i128Min]
    omega
  · intro hn
    refine ⟨?_, by rw [hneg]; simp [hn]⟩
    have hn2 := hn
    simp only [checked_neg, ite_eq_right_iff, reduceCtorEq, imp_false,
      not_and, not_le, i128Min, i128Max] at hn2
    simp only [i128Min]
    omega

/-- C5 witness: at the half-unbounded interval `(i128::MIN, 5)`, each clamp
implication holds. -/
theorem neg_clamps_only_at_sentinel_witness :
    (checked_neg (IntervalDomain.mk i128Min 5).lower_bound = none →
        (IntervalDomain.mk i128Min 5).lower_bound = i128Min ∧
        (IntervalDomain.mk i128Min 5).neg.upper_bound = i128Max) ∧
    (checked_neg (IntervalDomain.mk i128Min 5).upper_bound = none →
        (IntervalDomain.mk i128Min 5).upper_bound = i128Min ∧
        (IntervalDomain.mk i128Min 5).neg.lower_bound = i128Max) :=
  neg_clamps_only_at_sentinel (IntervalDomain.mk i128Min 5) (by decide)
    (by decide) (by decide) (by decide)

/-- C6 counterexample: containment monotonicity fails for bottom-equivalent
inner intervals: `a = (0, 10)` is contained in I32 and `b = (5, 3)` has both
bounds within a's bounds, yet `b.is_contained_in(I32)` is false because `b`
is bottom-equivalent. -/
theorem is_contained_in_monotone_cex :
    (IntervalDomain.mk 0 10).is_contained_in .I32 = true ∧
    (IntervalDomain.mk 0 10).lower_bound ≤ (IntervalDomain.mk 5 3).lower_bound ∧
    (IntervalDomain.mk 5 3).upper_bound ≤ (IntervalDomain.mk 0 10).upper_bound ∧
    (IntervalDomain.mk 5 3).is_contained_in .I32 = false := by
  decide

/-- C6 (amended): containment monotonicity holds for non-empty inner
intervals: if `a.is_contained_in(K)` is true, b's bounds lie within a's
bounds, and additionally `b.lower_bound ≤ b.upper_bound` (b is not
bottom-equivalent), then `b.is_contained_in(K)` is true. -/
theorem is_contained_in_monotone (a b : Mirai.IntervalDomain)
    (K : ExpressionType) (ha : a.is_contained_in K = true)
    (hl : a.lower_bound ≤ b.lower_bound) (hu : b.upper_bound ≤ a.upper_bound)
    (hbne : b.lower_bound ≤ b.upper_bound) :
    b.is_contained_in K = true := by
  cases K
  case NonNumeric => simp [IntervalDomain.is_contained_in] at ha
  all_goals
    simp only [IntervalDomain.is_contained_in] at ha ⊢
  all_goals
    split at ha
  all_goals
    first
    | exact Bool.noConfusion ha
    | (rename_i hcond
       simp only [IntervalDomain.is_bottom, IntervalDomain.is_top,
         Bool.or_eq_true, Bool.and_eq_true, decide_eq_true_eq, not_or,
         i128Min, i128Max, isizeMin, isizeMax, usizeMax] at hcond ha
       split
       case isTrue hcond2 =>
         simp only [IntervalDomain.is_bottom, IntervalDomain.is_top,
           Bool.or_eq_true, Bool.and_eq_true, decide_eq_true_eq,
           i128Min, i128Max, isizeMin, isizeMax, usizeMax] at hcond2
         omega
       case isFalse hcond2 =>
         simp only [decide_eq_true_eq, i128Min, i128Max, isizeMin, isizeMax,
           usizeMax]
         omega)

/-- C6 witness: `a = (0, 10)` is contained in I8 and `b = (2, 5)` lies
within it and is non-empty, so `b` is contained in I8. -/
theorem is_contained_in_monotone_witness :
    (IntervalDomain.mk 2 5).is_contained_in .I8 = true :=
  is_contained_in_monotone (IntervalDomain.mk 0 10) (IntervalDomain.mk 2 5)
    .I8 (by decide) (by decide) (by decide) (by decide)

/-- C10: applied to the canonical BOTTOM `(1, 0)`, `remove_lower_bound`
returns `(i128::MIN, 0)` and `remove_upper_bound` returns `(1, i128::MAX)`;
neither result satisfies `is_bottom`, so these constructors turn the empty
interval into a non-empty half-unbounded one rather than propagating bottom. -/
theorem remove_bound_does_not_preserve_bottom :
    BOTTOM.remove_lower_bound = ⟨i128Min, 0⟩ ∧
    BOTTOM.remove_upper_bound = ⟨1, i128Max⟩ ∧
    BOTTOM.remove_lower_bound.is_bottom = false ∧
    BOTTOM.remove_upper_bound.is_bottom = false := by
  decide

end Mirai
